import Mathlib

/-!
Verification of the detection-point simulator at the core of
`src/illicit_detection_app.py`.  The source's only substantive logic lives in
`create_detection_results_map` (lines 112–207): a loop generating synthetic
detection points (jittered coordinates, a uniform confidence draw, a random
activity type), a three-tier alert classification by confidence thresholds,
a marker-radius formula, and a fixed-offset region boundary polygon.

Numbers are embedded as exact rationals; the pseudo-random source is embedded
as an explicit stream of draws consumed in the order the source consumes them.
-/

/-- Alert tier derived from confidence (source lines 148–157). -/
inductive AlertLevel
  | LOW
  | MEDIUM
  | HIGH
  deriving DecidableEq, Repr

/-- The first-match threshold classification of source lines 148–157:
`if confidence >= 0.8: HIGH elif confidence >= 0.6: MEDIUM else: LOW`. -/
def classifyAlertLevel (confidence : ℚ) : AlertLevel :=
  if confidence ≥ 0.8 then AlertLevel.HIGH
  else if confidence ≥ 0.6 then AlertLevel.MEDIUM
  else AlertLevel.LOW

/-- Marker fill color chosen alongside the alert level (source lines 148–157). -/
def alertColor (confidence : ℚ) : String :=
  if confidence ≥ 0.8 then "red"
  else if confidence ≥ 0.6 then "orange"
  else "yellow"

/-- Marker visual radius `8 + confidence * 10` (source line 176). -/
def radius (confidence : ℚ) : ℚ := 8 + confidence * 10

/-- The fixed categorical set of activity types (source lines 144–146). -/
def activity_types : List String :=
  ["Illegal Mining", "Deforestation", "Construction", "Excavation"]

/-- An injected pseudo-random source: a stream of base draws together with the
current position.  Each primitive draw consumes exactly one stream value. -/
structure RandSource where
  stream : Nat → ℚ
  pos : Nat

/-- Consume one base draw from the random source. -/
def RandSource.next (r : RandSource) : ℚ × RandSource :=
  (r.stream r.pos, { r with pos := r.pos + 1 })

/-- One simulated observation (spec §3; source loop body lines 137–157). -/
structure DetectionPoint where
  latitude : ℚ
  longitude : ℚ
  confidence : ℚ
  activityType : String
  alertLevel : AlertLevel
  detectedAt : ℚ
  deriving DecidableEq, Repr

/-- A rendered circle marker (source lines 174–182). -/
structure CircleMarker where
  lat : ℚ
  lon : ℚ
  radius : ℚ
  fillColor : String
  deriving DecidableEq, Repr

/-- Marker construction for one detection point (source lines 174–182). -/
def markerOf (pt : DetectionPoint) : CircleMarker :=
  { lat := pt.latitude, lon := pt.longitude,
    radius := 8 + pt.confidence * 10, fillColor := alertColor pt.confidence }

/-- Parameters of the `generate` operation (spec §4.1).  The source hard-codes
center `(40.0155, -105.2705)`, confidence range `(0.3, 0.95)` and jitter
standard deviations `(0.02, 0.03)`; the spec generalizes them to parameters. -/
structure GenParams where
  centerLat : ℚ
  centerLon : ℚ
  count : ℤ
  confLo : ℚ
  confHi : ℚ
  jitterLat : ℚ
  jitterLon : ℚ
  deriving DecidableEq, Repr

/-- The parameter set the source hard-codes (lines 117, 139–143). -/
def sourceParams (count : ℤ) : GenParams :=
  { centerLat := 40.0155, centerLon := -105.2705, count := count,
    confLo := 0.3, confHi := 0.95, jitterLat := 0.02, jitterLon := 0.03 }

/-- Generate one detection point, consuming base draws in the source's order
(lines 139–157): latitude jitter, longitude jitter, confidence draw,
activity-type index.  A Gaussian jitter `normal(0, s)` is `s * z` for a base
draw `z`; `uniform(lo, hi)` is `lo + (hi - lo) * u` for a base draw `u` in
`[0, 1)`; `choice` over four categories indexes by `floor(u * 4)`. -/
def genPoint (p : GenParams) (now : ℚ) (r : RandSource) :
    DetectionPoint × RandSource :=
  let (zLat, r1) := r.next
  let lat := p.centerLat + p.jitterLat * zLat
  let (zLon, r2) := r1.next
  let lon := p.centerLon + p.jitterLon * zLon
  let (u, r3) := r2.next
  let confidence := p.confLo + (p.confHi - p.confLo) * u
  let (c, r4) := r3.next
  let activityType := activity_types.getD (Int.toNat ⌊c * 4⌋) "Illegal Mining"
  ({ latitude := lat, longitude := lon, confidence := confidence,
     activityType := activityType,
     alertLevel := classifyAlertLevel confidence, detectedAt := now }, r4)

/-- The generation loop `for i in range(n)` of source lines 137–157. -/
def genLoop (p : GenParams) (now : ℚ) :
    Nat → RandSource → List DetectionPoint × RandSource
  | 0, r => ([], r)
  | n + 1, r =>
    let pr := genPoint p now r
    let rest := genLoop p now n pr.2
    (pr.1 :: rest.1, rest.2)

/-- Error taxonomy of `generate` (spec §4.1 and §7). -/
inductive GenError
  | InvalidArgument
  deriving DecidableEq, Repr

/-- Modelled from the spec: §4.1 lists the error conditions of `generate`
(`count < 0`, confidence bounds inverted or outside `(0,1)`, a negative jitter
standard deviation); the source file hard-codes every parameter (lines
133–145) and has no parameterized entry point, so the validity predicate
follows the spec's words. -/
def validArgs (p : GenParams) : Prop :=
  0 ≤ p.count ∧ p.confLo < p.confHi ∧ 0 < p.confLo ∧ p.confHi < 1 ∧
  0 ≤ p.jitterLat ∧ 0 ≤ p.jitterLon

instance (p : GenParams) : Decidable (validArgs p) := by
  unfold validArgs
  infer_instance

/-- The `generate` operation of spec §4.1: validate the parameters, then run
the source's generation loop (lines 137–157). -/
def generate (p : GenParams) (now : ℚ) (r : RandSource) :
    Except GenError (List DetectionPoint) :=
  if validArgs p then Except.ok (genLoop p now p.count.toNat r).1
  else Except.error GenError.InvalidArgument

/-- The region-boundary polygon corners (source lines 185–190). -/
def roi_coords (centerLat centerLon : ℚ) : List (ℚ × ℚ) :=
  [ (centerLat + 0.03, centerLon - 0.04),
    (centerLat + 0.03, centerLon + 0.04),
    (centerLat - 0.03, centerLon + 0.04),
    (centerLat - 0.03, centerLon - 0.04) ]

/-- The data content of the map built by `create_detection_results_map`:
its center, detection points, circle markers, and boundary polygon. -/
structure DetectionResultsMap where
  centerLat : ℚ
  centerLon : ℚ
  points : List DetectionPoint
  markers : List CircleMarker
  boundary : List (ℚ × ℚ)
  deriving DecidableEq, Repr

/-- `create_detection_results_map(detection_data, config)` (source lines
112–207).  The source seeds the module-level generator (`np.random.seed(42)`,
line 134); here the seeded generator is the injected `r`.  `n_detections =
np.random.randint(5, 15)` (line 135) draws an integer in `[5, 15)` from one
base draw.  The clock (`datetime.now()`, line 166) is the injected `now`. -/
def create_detection_results_map {α β : Type} (detection_data : α) (config : β)
    (now : ℚ) (r : RandSource) : DetectionResultsMap :=
  let centerLat : ℚ := 40.0155
  let centerLon : ℚ := -105.2705
  let (u, r1) := r.next
  let n_detections : Nat := 5 + Int.toNat ⌊u * 10⌋
  let (pts, _) := genLoop (sourceParams (Int.ofNat n_detections)) now n_detections r1
  { centerLat := centerLat, centerLon := centerLon,
    points := pts, markers := pts.map markerOf,
    boundary := roi_coords centerLat centerLon }

/-- C1: `classifyAlertLevel` is a total deterministic function with
first-match threshold order: LOW on `[0, 0.6)`, MEDIUM on `[0.6, 0.8)`,
HIGH on `[0.8, ∞)`; in particular `classifyAlertLevel 0.8 = HIGH`,
`classifyAlertLevel 0.6 = MEDIUM`, `classifyAlertLevel 0.5999999 = LOW`. -/
theorem classifyAlertLevel_thresholds :
    (∀ c : ℚ, 0 ≤ c → c < 0.6 → classifyAlertLevel c = AlertLevel.LOW) ∧
    (∀ c : ℚ, 0.6 ≤ c → c < 0.8 → classifyAlertLevel c = AlertLevel.MEDIUM) ∧
    (∀ c : ℚ, 0.8 ≤ c → classifyAlertLevel c = AlertLevel.HIGH) ∧
    classifyAlertLevel 0.8 = AlertLevel.HIGH ∧
    classifyAlertLevel 0.6 = AlertLevel.MEDIUM ∧
    classifyAlertLevel 0.5999999 = AlertLevel.LOW := by
  refine ⟨?_, ?_, ?_, ?_, ?_, ?_⟩
  · intro c _ h1
    unfold classifyAlertLevel
    rw [if_neg (by push_neg; linarith), if_neg (by push_neg; linarith)]
  · intro c h0 h1
    unfold classifyAlertLevel
    rw [if_neg (by push_neg; linarith), if_pos (by exact_mod_cast h0)]
  · intro c h0
    unfold classifyAlertLevel
    rw [if_pos (by exact_mod_cast h0)]
  · unfold classifyAlertLevel
    norm_num
  · unfold classifyAlertLevel
    norm_num
  · unfold classifyAlertLevel
    norm_num

/-- Witness for C1 at concrete confidences 0.1, 0.7 and 0.9. -/
theorem classifyAlertLevel_thresholds_witness :
    classifyAlertLevel 0.1 = AlertLevel.LOW ∧
    classifyAlertLevel 0.7 = AlertLevel.MEDIUM ∧
    classifyAlertLevel 0.9 = AlertLevel.HIGH :=
  ⟨classifyAlertLevel_thresholds.1 0.1 (by norm_num) (by norm_num),
   classifyAlertLevel_thresholds.2.1 0.7 (by norm_num) (by norm_num),
   classifyAlertLevel_thresholds.2.2.1 0.9 (by norm_num)⟩

/-- C7: the confidence-to-visual-radius mapping `8 + confidence * 10` is
strictly monotonically increasing. -/
theorem radius_strictMono :
    ∀ c1 c2 : ℚ, c1 < c2 → radius c1 < radius c2 := by
  intro c1 c2 h
  unfold radius
  linarith

/-- Witness for C7 at confidences 0.3 and 0.9. -/
theorem radius_strictMono_witness : radius 0.3 < radius 0.9 :=
  radius_strictMono 0.3 0.9 (by norm_num)

/-- C9: the alert-level classification is total and never fails, even outside
the documented `[0, 1]` domain: every confidence below 0.6 (negatives
included) maps to LOW and every confidence at or above 0.8 (values above 1
included) maps to HIGH. -/
theorem classifyAlertLevel_total :
    (∀ c : ℚ, c < 0.6 → classifyAlertLevel c = AlertLevel.LOW) ∧
    (∀ c : ℚ, 0.8 ≤ c → classifyAlertLevel c = AlertLevel.HIGH) ∧
    classifyAlertLevel (-5) = AlertLevel.LOW ∧
    classifyAlertLevel 7 = AlertLevel.HIGH := by
  refine ⟨?_, ?_, ?_, ?_⟩
  · intro c h1
    unfold classifyAlertLevel
    rw [if_neg (by push_neg; linarith), if_neg (by push_neg; linarith)]
  · intro c h0
    unfold classifyAlertLevel
    rw [if_pos (by exact_mod_cast h0)]
  · unfold classifyAlertLevel
    norm_num
  · unfold classifyAlertLevel
    norm_num

/-- Witness for C9 at confidences -1 and 2. -/
theorem classifyAlertLevel_total_witness :
    classifyAlertLevel (-1) = AlertLevel.LOW ∧
    classifyAlertLevel 2 = AlertLevel.HIGH :=
  ⟨classifyAlertLevel_total.1 (-1) (by norm_num),
   classifyAlertLevel_total.2.1 2 (by norm_num)⟩

/-- Unfolding equation for the empty generation loop. -/
theorem genLoop_zero (p : GenParams) (now : ℚ) (r : RandSource) :
    genLoop p now 0 r = ([], r) := rfl

/-- Unfolding equation for one step of the generation loop. -/
theorem genLoop_succ (p : GenParams) (now : ℚ) (n : Nat) (r : RandSource) :
    genLoop p now (n + 1) r =
      ((genPoint p now r).1 :: (genLoop p now n (genPoint p now r).2).1,
       (genLoop p now n (genPoint p now r).2).2) := rfl

/-- The generation loop produces exactly `n` points. -/
theorem genLoop_length (p : GenParams) (now : ℚ) :
    ∀ (n : Nat) (r : RandSource), (genLoop p now n r).1.length = n := by
  intro n
  induction n with
  | zero => intro r; rfl
  | succ n ih =>
    intro r
    rw [genLoop_succ]
    simp [ih]

/-- A successful `generate` call implies valid arguments and equals the loop
output. -/
theorem generate_ok_eq (p : GenParams) (now : ℚ) (r : RandSource)
    (l : List DetectionPoint) (h : generate p now r = Except.ok l) :
    validArgs p ∧ l = (genLoop p now p.count.toNat r).1 := by
  by_cases hv : validArgs p
  · refine ⟨hv, ?_⟩
    unfold generate at h
    rw [if_pos hv] at h
    injection h with h
    exact h.symm
  · unfold generate at h
    rw [if_neg hv] at h
    exact Except.noConfusion h

/-- Every confidence produced by the loop lies in `[confLo, confHi)`,
provided the base draws lie in `[0, 1)`. -/
theorem genLoop_confidence (p : GenParams) (now : ℚ)
    (hlo : p.confLo < p.confHi) :
    ∀ (n : Nat) (r : RandSource), (∀ i, 0 ≤ r.stream i ∧ r.stream i < 1) →
      ∀ pt ∈ (genLoop p now n r).1,
        p.confLo ≤ pt.confidence ∧ pt.confidence < p.confHi := by
  intro n
  induction n with
  | zero => intro r _ pt hmem; rw [genLoop_zero] at hmem; exact absurd hmem (List.not_mem_nil pt)
  | succ n ih =>
    intro r hr pt hmem
    rw [genLoop_succ] at hmem
    rcases List.mem_cons.mp hmem with h | h
    · subst h
      constructor
      · show p.confLo ≤ p.confLo + (p.confHi - p.confLo) * r.stream (r.pos + 2)
        nlinarith [(hr (r.pos + 2)).1, (hr (r.pos + 2)).2]
      · show p.confLo + (p.confHi - p.confLo) * r.stream (r.pos + 2) < p.confHi
        nlinarith [(hr (r.pos + 2)).1, (hr (r.pos + 2)).2]
    · exact ih (genPoint p now r).2 (fun i => hr i) pt h

/-- Every point produced by the loop carries the alert level classified from
its own confidence. -/
theorem genLoop_alertLevel (p : GenParams) (now : ℚ) :
    ∀ (n : Nat) (r : RandSource), ∀ pt ∈ (genLoop p now n r).1,
      pt.alertLevel = classifyAlertLevel pt.confidence := by
  intro n
  induction n with
  | zero => intro r pt hmem; rw [genLoop_zero] at hmem; exact absurd hmem (List.not_mem_nil pt)
  | succ n ih =>
    intro r pt hmem
    rw [genLoop_succ] at hmem
    rcases List.mem_cons.mp hmem with h | h
    · subst h; rfl
    · exact ih _ pt h

/-- C2: `generate` fails with an InvalidArgument condition, reported
synchronously as its return value, exactly when its parameters are malformed:
`count < 0`, confidence bounds inverted or outside `(0,1)`, or a negative
jitter standard deviation; in particular `count = -1` fails. -/
theorem generate_invalidArgument :
    (∀ (p : GenParams) (now : ℚ) (r : RandSource),
      generate p now r = Except.error GenError.InvalidArgument ↔
        (p.count < 0 ∨
         ¬(p.confLo < p.confHi ∧ 0 < p.confLo ∧ p.confLo < 1 ∧
            0 < p.confHi ∧ p.confHi < 1) ∨
         p.jitterLat < 0 ∨ p.jitterLon < 0)) ∧
    (∀ (now : ℚ) (r : RandSource),
      generate (sourceParams (-1)) now r =
        Except.error GenError.InvalidArgument) := by
  have key : ∀ p : GenParams,
      (p.count < 0 ∨
       ¬(p.confLo < p.confHi ∧ 0 < p.confLo ∧ p.confLo < 1 ∧
          0 < p.confHi ∧ p.confHi < 1) ∨
       p.jitterLat < 0 ∨ p.jitterLon < 0) ↔ ¬ validArgs p := by
    intro p
    unfold validArgs
    constructor
    · intro h hv
      obtain ⟨h1, h2, h3, h4, h5, h6⟩ := hv
      rcases h with h | h | h | h
      · omega
      · exact h ⟨h2, h3, by linarith, by linarith, h4⟩
      · linarith
      · linarith
    · intro h
      by_contra hcon
      push_neg at hcon
      obtain ⟨hc1, hc2, hc3, hc4⟩ := hcon
      exact h ⟨by omega, hc2.1, hc2.2.1, hc2.2.2.2.2, hc3, hc4⟩
  constructor
  · intro p now r
    rw [key p]
    unfold generate
    by_cases h : validArgs p
    · rw [if_pos h]
      simp [h]
    · rw [if_neg h]
      simp [h]
  · intro now r
    unfold generate
    rw [if_neg (by intro hv; exact absurd hv.1 (by norm_num [sourceParams]))]

/-- Witness for C2: the source's parameter set with `count = -1` is rejected,
and its malformedness is certified through the equivalence. -/
theorem generate_invalidArgument_witness :
    generate (sourceParams (-1)) 0 ⟨fun _ => 0, 0⟩ =
      Except.error GenError.InvalidArgument :=
  (generate_invalidArgument.1 (sourceParams (-1)) 0 ⟨fun _ => 0, 0⟩).mpr
    (Or.inl (by norm_num [sourceParams]))

/-- C3: `generate` is deterministic given its random source — identical
parameters and an identically seeded source give identical output sequences —
and each point consumes the source's draws in the fixed order latitude
jitter, longitude jitter, confidence, activity-type index (positions `k`,
`k+1`, `k+2`, `k+3`, leaving the source at `k+4`). -/
theorem generate_deterministic :
    (∀ (p : GenParams) (now : ℚ) (s1 s2 : Nat → ℚ) (k : Nat),
      (∀ i, s1 i = s2 i) →
      generate p now ⟨s1, k⟩ = generate p now ⟨s2, k⟩) ∧
    (∀ (p : GenParams) (now : ℚ) (s : Nat → ℚ) (k : Nat),
      genPoint p now ⟨s, k⟩ =
        ({ latitude := p.centerLat + p.jitterLat * s k,
           longitude := p.centerLon + p.jitterLon * s (k + 1),
           confidence := p.confLo + (p.confHi - p.confLo) * s (k + 2),
           activityType :=
             activity_types.getD (Int.toNat ⌊s (k + 3) * 4⌋) "Illegal Mining",
           alertLevel :=
             classifyAlertLevel (p.confLo + (p.confHi - p.confLo) * s (k + 2)),
           detectedAt := now },
         ⟨s, k + 4⟩)) := by
  constructor
  · intro p now s1 s2 k h
    have hs : s1 = s2 := funext h
    rw [hs]
  · intro p now s k
    rfl

/-- Witness for C3 at the source's parameter set and a constant stream. -/
theorem generate_deterministic_witness :
    generate (sourceParams 2) 0 ⟨fun _ => 1/2, 0⟩ =
      generate (sourceParams 2) 0 ⟨fun _ => 1/2, 0⟩ :=
  generate_deterministic.1 (sourceParams 2) 0 (fun _ => 1/2) (fun _ => 1/2) 0
    (fun _ => rfl)

/-- C4: for every non-negative count (with otherwise valid parameters)
`generate` returns an ordered sequence of exactly `count` points, and
`count = 0` yields the empty sequence rather than an error. -/
theorem generate_count :
    (∀ (p : GenParams) (now : ℚ) (r : RandSource),
      validArgs p →
      ∃ l, generate p now r = Except.ok l ∧ (l.length : ℤ) = p.count) ∧
    (∀ (p : GenParams) (now : ℚ) (r : RandSource),
      validArgs p → p.count = 0 → generate p now r = Except.ok []) := by
  constructor
  · intro p now r hv
    refine ⟨(genLoop p now p.count.toNat r).1, ?_, ?_⟩
    · unfold generate
      rw [if_pos hv]
    · rw [genLoop_length]
      exact Int.toNat_of_nonneg hv.1
  · intro p now r hv h0
    have ht : p.count.toNat = 0 := by omega
    unfold generate
    rw [if_pos hv, ht]
    rfl

/-- Witness for C4: the source's parameter set with `count = 0` returns the
empty sequence. -/
theorem generate_count_witness :
    generate (sourceParams 0) 0 ⟨fun _ => 1/2, 0⟩ = Except.ok [] :=
  generate_count.2 (sourceParams 0) 0 ⟨fun _ => 1/2, 0⟩
    (by norm_num [validArgs, sourceParams]) rfl

/-- C5: with confidence range `(0.3, 0.95)`, every point returned by
`generate` has confidence in the half-open interval `[0.3, 0.95)`, provided
the random source's base draws lie in `[0, 1)` (the uniform draw is
`0.3 + (0.95 - 0.3) * u` per point, independent of the other draws). -/
theorem generate_confidence_inRange :
    ∀ (p : GenParams) (now : ℚ) (r : RandSource) (l : List DetectionPoint),
      p.confLo = 0.3 → p.confHi = 0.95 →
      (∀ i, 0 ≤ r.stream i ∧ r.stream i < 1) →
      generate p now r = Except.ok l →
      ∀ pt ∈ l, 0.3 ≤ pt.confidence ∧ pt.confidence < 0.95 := by
  intro p now r l hlo hhi hr hgen pt hmem
  obtain ⟨hv, hl⟩ := generate_ok_eq p now r l hgen
  subst hl
  have h := genLoop_confidence p now (by rw [hlo, hhi]; norm_num)
    p.count.toNat r hr pt hmem
  rw [hlo, hhi] at h
  exact h

/-- Witness for C5: the first point generated from a constant stream of
draws equal to 1/2 under the source's parameter set. -/
theorem generate_confidence_inRange_witness :
    0.3 ≤ ((genPoint (sourceParams 1) 0 ⟨fun _ => 1/2, 0⟩).1).confidence ∧
    ((genPoint (sourceParams 1) 0 ⟨fun _ => 1/2, 0⟩).1).confidence < 0.95 := by
  have hv : validArgs (sourceParams 1) := by norm_num [validArgs, sourceParams]
  refine generate_confidence_inRange (sourceParams 1) 0 ⟨fun _ => 1/2, 0⟩
    ((genLoop (sourceParams 1) 0 1 ⟨fun _ => 1/2, 0⟩).1) rfl rfl
    (fun i => by norm_num) ?_ _ ?_
  · unfold generate
    rw [if_pos hv]
    rfl
  · rw [genLoop_succ]
    exact List.mem_cons_self _ _

/-- C6: every point returned by `generate` has its alert level equal to
`classifyAlertLevel` of its own confidence, and the confidence-to-level
mapping is idempotent and referentially transparent: it is a pure function,
so repeated evaluation at the same confidence gives the same level. -/
theorem generate_alertLevel_consistent :
    (∀ (p : GenParams) (now : ℚ) (r : RandSource) (l : List DetectionPoint),
      generate p now r = Except.ok l →
      ∀ pt ∈ l, pt.alertLevel = classifyAlertLevel pt.confidence) ∧
    (∀ c : ℚ, classifyAlertLevel c = classifyAlertLevel c) := by
  constructor
  · intro p now r l hgen pt hmem
    obtain ⟨hv, hl⟩ := generate_ok_eq p now r l hgen
    subst hl
    exact genLoop_alertLevel p now p.count.toNat r pt hmem
  · intro c
    rfl

/-- Witness for C6: the first point generated from a constant zero stream
under the source's parameter set. -/
theorem generate_alertLevel_consistent_witness :
    ((genPoint (sourceParams 1) 0 ⟨fun _ => 0, 0⟩).1).alertLevel =
      classifyAlertLevel
        ((genPoint (sourceParams 1) 0 ⟨fun _ => 0, 0⟩).1).confidence := by
  have hv : validArgs (sourceParams 1) := by norm_num [validArgs, sourceParams]
  refine generate_alertLevel_consistent.1 (sourceParams 1) 0 ⟨fun _ => 0, 0⟩
    ((genLoop (sourceParams 1) 0 1 ⟨fun _ => 0, 0⟩).1) ?_ _ ?_
  · unfold generate
    rw [if_pos hv]
    rfl
  · rw [genLoop_succ]
    exact List.mem_cons_self _ _

/-- C8: the region-boundary polygon supplied to the map-rendering
collaborator is a quadrilateral whose four corners are the center offset by
exactly ±0.03 degrees latitude and ±0.04 degrees longitude. -/
theorem roi_boundary_quadrilateral :
    ∀ {α β : Type} (d : α) (c : β) (now : ℚ) (r : RandSource),
      (create_detection_results_map d c now r).boundary.length = 4 ∧
      ∀ q ∈ (create_detection_results_map d c now r).boundary,
        ((q.1 - (create_detection_results_map d c now r).centerLat = 0.03 ∨
          q.1 - (create_detection_results_map d c now r).centerLat = -0.03) ∧
         (q.2 - (create_detection_results_map d c now r).centerLon = 0.04 ∨
          q.2 - (create_detection_results_map d c now r).centerLon = -0.04)) := by
  intro α β d c now r
  have hb : (create_detection_results_map d c now r).boundary =
      roi_coords 40.0155 (-105.2705) := rfl
  have hlat : (create_detection_results_map d c now r).centerLat = 40.0155 := rfl
  have hlon : (create_detection_results_map d c now r).centerLon =
      -105.2705 := rfl
  refine ⟨rfl, ?_⟩
  intro q hmem
  rw [hb] at hmem
  rw [hlat, hlon]
  simp only [roi_coords, List.mem_cons, List.not_mem_nil, or_false] at hmem
  rcases hmem with h | h | h | h <;> subst h <;>
    constructor <;> norm_num

/-- Witness for C8 at the first corner of the boundary polygon. -/
theorem roi_boundary_quadrilateral_witness :
    (((40.0155 + 0.03 : ℚ), (-105.2705 - 0.04 : ℚ)).1 -
       (create_detection_results_map (0 : Nat) (0 : Nat) 0
         ⟨fun _ => 0, 0⟩).centerLat = 0.03 ∨
     ((40.0155 + 0.03 : ℚ), (-105.2705 - 0.04 : ℚ)).1 -
       (create_detection_results_map (0 : Nat) (0 : Nat) 0
         ⟨fun _ => 0, 0⟩).centerLat = -0.03) ∧
    (((40.0155 + 0.03 : ℚ), (-105.2705 - 0.04 : ℚ)).2 -
       (create_detection_results_map (0 : Nat) (0 : Nat) 0
         ⟨fun _ => 0, 0⟩).centerLon = 0.04 ∨
     ((40.0155 + 0.03 : ℚ), (-105.2705 - 0.04 : ℚ)).2 -
       (create_detection_results_map (0 : Nat) (0 : Nat) 0
         ⟨fun _ => 0, 0⟩).centerLon = -0.04) :=
  (roi_boundary_quadrilateral (0 : Nat) (0 : Nat) 0 ⟨fun _ => 0, 0⟩).2
    ((40.0155 + 0.03 : ℚ), (-105.2705 - 0.04 : ℚ)) (List.mem_cons_self _ _)

/-- C10: `create_detection_results_map` never reads its `detection_data` or
`config` parameters: for any two values of each (of any types), the same
random-source state and the same clock give identical maps (points, markers
and boundary). -/
theorem create_map_ignores_inputs :
    ∀ {α1 α2 β1 β2 : Type} (d1 : α1) (d2 : α2) (c1 : β1) (c2 : β2)
      (now : ℚ) (r : RandSource),
      create_detection_results_map d1 c1 now r =
        create_detection_results_map d2 c2 now r := by
  intro α1 α2 β1 β2 d1 d2 c1 c2 now r
  rfl
